import Mathlib

/-!
Verification of the QQ auto-reply automation (qq_auto.py, native macOS
accessibility backend; qq_web.py, Playwright browser backend).

The Python sources are shallowly embedded: external observations
(window enumerations, badge readings, selector resolutions, permission
outcomes) are inputs drawn from explicit environment records, and each
routine is a pure function from its environment to its result record,
its state updates, and the list of synthetic-input actions it issued.
-/

namespace QQAuto

/-- Python substring test `needle in hay` on strings. -/
def strContains (hay needle : String) : Bool :=
  hay.toList.tails.any (fun t => needle.toList.isPrefixOf t)

/-! ## Badge parsing (qq_auto.py, get_dock_badge) -/

/-- Record of whether two consecutive characters are both underscores. -/
def noConsecutiveUnderscore : List Char → Bool
  | [] => true
  | [_] => true
  | a :: b :: rest => !(a == '_' && b == '_') && noConsecutiveUnderscore (b :: rest)

/-- Validity of the digit body accepted by Python `int()` after an optional
sign: nonempty, digits with optional single underscores strictly between
digits. ASCII model. -/
def validIntBody (cs : List Char) : Bool :=
  !cs.isEmpty &&
  cs.all (fun c => c.isDigit || c == '_') &&
  (match cs.head? with | some c => c.isDigit | none => false) &&
  (match cs.getLast? with | some c => c.isDigit | none => false) &&
  noConsecutiveUnderscore cs

/-- Numeric value of a valid digit body (underscores skipped). -/
def bodyToNat (cs : List Char) : Nat :=
  (cs.filter (fun c => c.isDigit)).foldl (fun n c => 10 * n + (c.toNat - 48)) 0

/-- Surrounding-whitespace strip on a character list (Python `str.strip`,
ASCII model). -/
def stripWhitespace (cs : List Char) : List Char :=
  ((cs.dropWhile Char.isWhitespace).reverse.dropWhile Char.isWhitespace).reverse

/-- Python `int(s)` for base 10 on ASCII strings: strip surrounding
whitespace, optional sign, digit body; `none` models `ValueError`. -/
def pyIntOfString (s : String) : Option Int :=
  match stripWhitespace s.toList with
  | '+' :: rest => if validIntBody rest then some (bodyToNat rest) else none
  | '-' :: rest => if validIntBody rest then some (-(bodyToNat rest : Int)) else none
  | cs => if validIntBody cs then some (bodyToNat cs) else none

/-- qq_auto.py `get_dock_badge`, applied to the raw AppleScript output:
`int(result)` with `ValueError`/`TypeError` mapped to 0. -/
def get_dock_badge (raw : String) : Int :=
  (pyIntOfString raw).getD 0

/-! ## Selector fallback loops (qq_web.py) -/

/-- Outcome of one `wait_for_selector` attempt, with the opaque element
handle type `α`. -/
inductive LocateResult (α : Type) where
  | found (handle : α)
  | notFound
  | timeout
deriving DecidableEq, Repr

/-- The `for sel in selectors: try/except continue` loop of qq_web.py:
attempt each selector in order, stop at the first success. -/
def tryStrategies {α : Type} (locate : String → LocateResult α) :
    List String → Option (String × α)
  | [] => none
  | s :: rest =>
    match locate s with
    | .found h => some (s, h)
    | _ => tryStrategies locate rest

/-- The selectors actually attempted by `tryStrategies` before it stops. -/
def attemptedStrategies {α : Type} (locate : String → LocateResult α) :
    List String → List String
  | [] => []
  | s :: rest =>
    match locate s with
    | .found _ => [s]
    | _ => s :: attemptedStrategies locate rest

/-- qq_web.py `send_message` message-input selector list. -/
def input_selectors : List String :=
  ["[contenteditable='true']",
   ".chat-input [contenteditable]",
   "[class*='editor'] [contenteditable]",
   "div[role='textbox']",
   ".ql-editor",
   "textarea"]

/-- qq_web.py `search_contact` search-box selector list. -/
def search_selectors : List String :=
  ["input[placeholder*='搜索']",
   "input[type='search']",
   ".search-input input",
   "[class*='search'] input",
   "input[placeholder*='Search']"]

/-- qq_web.py `search_contact` result selector list for a given name. -/
def result_selectors (name : String) : List String :=
  ["text=" ++ name,
   ".search-result-item:first-child",
   "[class*='search-result'] >> nth=0"]

/-! ## Data model (qq_auto.py) -/

/-- A window descriptor as parsed from `get_qq_windows`. -/
structure Window where
  name : String
  x : Int
  y : Int
  width : Int
  height : Int
deriving DecidableEq, Repr

/-- A synthetic-input or pacing action issued by the native backend.
`clickInput w` is the click at the input area of `w`, computed in the
source as `(x + width // 2, y + int(height * 0.85))`. -/
inductive Action where
  | sleepJitter (seconds : ℚ)
  | activateApp
  | raiseWin (name : String)
  | clickInput (w : Window)
  | clickAt (x y : Int)
  | pasteText (text : String)
  | pressReturn
deriving DecidableEq, Repr

/-- One record of the monitor's append-only event log
(`new_message_events.jsonl`); the timestamp field is omitted. -/
structure Event where
  sender : String
  type : String
  replied : Bool
  reply_message : Option String
  note : Option String
  error : Option String
deriving DecidableEq, Repr

/-- The parameters of `monitor_chat`. -/
structure MonitorConfig where
  target : Option String
  auto_reply : Option String
  delay : ℚ
  jitter : ℚ
  max_replies : Nat
  dry_run : Bool

/-- The mutable state of one monitor session. -/
structure MonitorState where
  known_windows : List String
  last_badge : Int
  reply_count : Nat
  replied_windows : List String
deriving DecidableEq, Repr

/-- Environment observed while one source is being replied to: the jitter
sample drawn by `random.uniform`, the window enumeration after the delay,
and whether the paste and the return keystroke are permitted. -/
structure SourceEnv where
  jitter_sample : ℚ
  windows_after_delay : List Window
  paste_ok : Bool
  send_ok : Bool

/-- Environment observed by one polling cycle. -/
structure CycleEnv where
  qq_running : Bool
  windows : List Window
  badge : Int
  src : String → SourceEnv

/-- The structural window names excluded from new-window detection
(empty name, main panel, search utility). -/
def reserved_names : List String := ["", "QQ", "全网搜索"]

/-- Names to treat as new this cycle:
`current_names - known_windows - {"", "QQ", "全网搜索"}`. The Python set
is modelled as a list in enumeration order. -/
def newWindowNames (windows : List Window) (known : List String) : List String :=
  ((windows.map Window.name).dedup).filter
    (fun n => !(decide (n ∈ known)) && !(decide (n ∈ reserved_names)))

/-- Event skeleton recorded for a detected source. -/
def baseEvent (winName : String) : Event :=
  { sender := winName, type := "new_chat_window", replied := false,
    reply_message := none, note := none, error := none }

/-- `replied_windows.add(win_name)` followed by `reply_count += 1`. -/
def addReplied (st : MonitorState) (n : String) : MonitorState :=
  { st with replied_windows := st.replied_windows ++ [n],
            reply_count := st.reply_count + 1 }

/-- The `if max_replies and reply_count >= max_replies: return` check that
runs after an event has been written. -/
def haltAfterEvent (cfg : MonitorConfig) (st : MonitorState) : Bool :=
  decide (cfg.max_replies ≠ 0 ∧ cfg.max_replies ≤ st.reply_count)

/-- Result of processing one detected source in the monitor loop. -/
structure SourceResult where
  event : Option Event
  state : MonitorState
  actions : List Action
  halt : Bool

/-- The body of `for win_name in new_windows` in `monitor_chat`: the three
skip checks, then the optional delayed reply with re-verification, and the
post-event `max_replies` check. -/
def processSource (cfg : MonitorConfig) (env : SourceEnv) (st : MonitorState)
    (winName : String) : SourceResult :=
  if winName = "" ∨ winName = "QQ" ∨ winName = "全网搜索" then
    ⟨none, st, [], false⟩
  else if (match cfg.target with
           | some t => !(strContains winName t)
           | none => false) then
    ⟨none, st, [], false⟩
  else if winName ∈ st.replied_windows then
    ⟨none, st, [], false⟩
  else
    match cfg.auto_reply with
    | none => ⟨some (baseEvent winName), st, [], haltAfterEvent cfg st⟩
    | some reply =>
      let d := max 1 (cfg.delay + env.jitter_sample)
      let acts := [Action.sleepJitter d, Action.activateApp]
      match env.windows_after_delay.find? (fun w => w.name == winName) with
      | none =>
        ⟨some { baseEvent winName with error := some "窗口已关闭" }, st, acts,
          haltAfterEvent cfg st⟩
      | some w =>
        let acts := acts ++ [Action.raiseWin winName, Action.clickInput w]
        if env.paste_ok then
          let acts := acts ++ [Action.pasteText reply]
          if cfg.dry_run then
            let st' := addReplied st winName
            ⟨some { baseEvent winName with note := some "dry_run" }, st', acts,
              haltAfterEvent cfg st'⟩
          else if env.send_ok then
            let st' := addReplied st winName
            let ev := { baseEvent winName with replied := true, reply_message := some reply }
            ⟨some ev, st', acts ++ [Action.pressReturn], haltAfterEvent cfg st'⟩
          else
            ⟨some { baseEvent winName with error := some "缺少辅助功能权限" },
              st, acts, haltAfterEvent cfg st⟩
        else
          ⟨some { baseEvent winName with error := some "缺少辅助功能权限" },
            st, acts, haltAfterEvent cfg st⟩

/-- Result of one polling cycle (or of the source loop inside it). -/
structure CycleResult where
  events : List Event
  state : MonitorState
  actions : List Action
  halted : Bool

/-- The `for win_name in new_windows` loop: an early `return` from
`processSource` aborts the rest of the list. -/
def processNewWindows (cfg : MonitorConfig) (cenv : CycleEnv) :
    MonitorState → List String → CycleResult
  | st, [] => ⟨[], st, [], false⟩
  | st, n :: rest =>
    let r := processSource cfg (cenv.src n) st n
    if r.halt then ⟨r.event.toList, r.state, r.actions, true⟩
    else
      let r2 := processNewWindows cfg cenv r.state rest
      ⟨r.event.toList ++ r2.events, r2.state, r.actions ++ r2.actions, r2.halted⟩

/-- One iteration of the `while True` polling loop in `monitor_chat`. -/
def stepCycle (cfg : MonitorConfig) (cenv : CycleEnv) (st : MonitorState) :
    CycleResult :=
  if !cenv.qq_running then ⟨[], st, [], false⟩
  else
    let current_names := (cenv.windows.map Window.name).dedup
    let news := newWindowNames cenv.windows st.known_windows
    let badge_increased := decide (cenv.badge > st.last_badge)
    if news.isEmpty && !badge_increased then
      ⟨[], { st with known_windows := current_names, last_badge := cenv.badge },
        [], false⟩
    else
      let st0 := if badge_increased then { st with last_badge := cenv.badge } else st
      let r := processNewWindows cfg cenv st0 news
      if r.halted then r
      else
        ⟨r.events,
         { r.state with known_windows := current_names, last_badge := cenv.badge },
         r.actions, false⟩

/-- Result of a whole monitor session over a finite list of cycles. -/
structure RunResult where
  events : List Event
  state : MonitorState
  actions : List Action

/-- `monitor_chat` run over a finite sequence of polling-cycle
environments; a `max_replies` return stops the remaining cycles. -/
def runMonitor (cfg : MonitorConfig) : MonitorState → List CycleEnv → RunResult
  | st, [] => ⟨[], st, []⟩
  | st, c :: cs =>
    let r := stepCycle cfg c st
    if r.halted then ⟨r.events, r.state, r.actions⟩
    else
      let r2 := runMonitor cfg r.state cs
      ⟨r.events ++ r2.events, r2.state, r.actions ++ r2.actions⟩

/-- The state recorded before the loop starts: names of the initial window
enumeration, the initial badge, zero replies, empty dedup set. -/
def initialState (initWindows : List Window) (initBadge : Int) : MonitorState :=
  ⟨(initWindows.map Window.name).dedup, initBadge, 0, []⟩

/-- Source identities of the "sent" subset of an event list. -/
def sentSenders (evs : List Event) : List String :=
  (evs.filter (fun e => e.replied)).map Event.sender

/-! ## Native one-shot operations (qq_auto.py) -/

/-- qq_auto.py `find_chat_window`: first enumerated window whose name is
neither empty nor one of the structural names. -/
def find_chat_window (windows : List Window) : Option Window :=
  windows.find?
    (fun w => !(w.name == "") && !(w.name == "QQ") && !(w.name == "全网搜索"))

/-- Environment observed by one native `send_message` call. -/
structure NativeEnv where
  qq_running : Bool
  windows : List Window
  front_window : Option Window
  paste_ok : Bool
  send_ok : Bool

/-- Result dictionary of native `send_message`, plus the issued actions. -/
structure SendResult where
  success : Bool
  message : String
  dry_run : Bool
  status : Option String
  error : Option String
  chat_window : Option String
  actions : List Action
deriving DecidableEq, Repr

/-- qq_auto.py `send_message`: find a chat window (falling back to the
front window), click its input area, paste, and unless `dry_run` press
return. -/
def send_message (env : NativeEnv) (message : String) (dry_run : Bool) :
    SendResult :=
  if !env.qq_running then
    ⟨false, message, dry_run, none, some "QQ 未运行", none, []⟩
  else
    let init := ([Action.activateApp], (none : Option String))
    let step :=
      match find_chat_window env.windows with
      | some w => ([Action.activateApp, Action.raiseWin w.name, Action.clickInput w],
                   some w.name)
      | none =>
        match env.front_window with
        | some w => ([Action.activateApp, Action.clickInput w], none)
        | none => init
    let acts := step.1
    let chatw := step.2
    if !env.paste_ok then
      ⟨false, message, dry_run, none, some "缺少辅助功能权限", chatw, acts⟩
    else
      let acts := acts ++ [Action.pasteText message]
      if dry_run then
        ⟨true, message, dry_run, some "typed_not_sent", none, chatw, acts⟩
      else if !env.send_ok then
        ⟨false, message, dry_run, none, some "缺少辅助功能权限，消息已输入但无法发送",
          chatw, acts⟩
      else
        ⟨true, message, dry_run, some "sent", none, chatw,
          acts ++ [Action.pressReturn]⟩

/-- Environment observed by one native `search_contact` call. -/
structure SearchEnv where
  qq_running : Bool
  front_window : Option Window
  paste_ok : Bool
  send_ok : Bool
  windows_after : List Window

/-- Result dictionary of native `search_contact`, plus the issued actions. -/
structure SearchResult where
  success : Bool
  name : String
  error : Option String
  note : Option String
  chat_window : Option String
  actions : List Action
deriving DecidableEq, Repr

/-- qq_auto.py `search_contact`: click the main-panel search area, paste
the query, press return, then check whether a chat window appeared; the
check failing still yields success with a note. -/
def search_contact (env : SearchEnv) (name : String) : SearchResult :=
  if !env.qq_running then
    ⟨false, name, some "QQ 未运行", none, none, []⟩
  else
    match env.front_window with
    | none =>
      ⟨false, name, some "无法获取 QQ 窗口信息", none, none, [Action.activateApp]⟩
    | some w =>
      let acts := [Action.activateApp,
                   Action.clickAt (w.x + w.width.fdiv 2) (w.y + 70)]
      if !env.paste_ok then
        ⟨false, name, some "缺少辅助功能权限", none, none, acts⟩
      else
        let acts := acts ++ [Action.pasteText name]
        if !env.send_ok then
          ⟨false, name, some "缺少辅助功能权限", none, none, acts⟩
        else
          let acts := acts ++ [Action.pressReturn]
          match find_chat_window env.windows_after with
          | some cw => ⟨true, name, none, none, some cw.name, acts⟩
          | none =>
            ⟨true, name, none, some "操作已执行但未检测到聊天窗口", none, acts⟩

/-! ## Browser-backend operations (qq_web.py) -/

/-- A primitive browser interaction. -/
inductive WebAction where
  | clickSelector (sel : String)
  | fill (sel : String) (text : String)
  | typeKeys (text : String)
  | pressEnter
deriving DecidableEq, Repr

/-- Selector resolutions available to one `QQWebAutomation.search_contact`
call: against the page before and after the query is filled in. -/
structure WebSearchEnv where
  locateSearchBox : String → LocateResult Nat
  locateResult : String → LocateResult Nat

/-- Result dictionary of browser `search_contact`, plus issued actions. -/
structure WebSearchResult where
  success : Bool
  name : String
  error : Option String
  actions : List WebAction
deriving DecidableEq, Repr

/-- qq_web.py `QQWebAutomation.search_contact`: resolve a search box from
the fallback list, fill the query, resolve and click a result; either
resolution exhausting its list is reported as a failure. -/
def web_search_contact (env : WebSearchEnv) (name : String) : WebSearchResult :=
  match tryStrategies env.locateSearchBox search_selectors with
  | none => ⟨false, name, some "未找到搜索框", []⟩
  | some (sel, _) =>
    let acts := [WebAction.clickSelector sel, WebAction.fill sel name]
    match tryStrategies env.locateResult (result_selectors name) with
    | none => ⟨false, name, some "未找到搜索结果", acts⟩
    | some (rsel, _) =>
      ⟨true, name, none, acts ++ [WebAction.clickSelector rsel]⟩

/-- Selector resolutions available to one `QQWebAutomation.send_message`
call. -/
structure WebSendEnv where
  locateInput : String → LocateResult Nat

/-- Result dictionary of browser `send_message`, plus issued actions. -/
structure WebSendResult where
  success : Bool
  message : String
  dry_run : Bool
  status : Option String
  error : Option String
  actions : List WebAction
deriving DecidableEq, Repr

/-- qq_web.py `QQWebAutomation.send_message`: resolve the message input
from the fallback list, clear and type the message, and unless `dry_run`
press Enter. -/
def web_send_message (env : WebSendEnv) (message : String) (dry_run : Bool) :
    WebSendResult :=
  match tryStrategies env.locateInput input_selectors with
  | none => ⟨false, message, dry_run, none, some "未找到消息输入框", []⟩
  | some (sel, _) =>
    let acts := [WebAction.clickSelector sel, WebAction.fill sel "",
                 WebAction.typeKeys message]
    if dry_run then
      ⟨true, message, dry_run, some "typed_not_sent", none, acts⟩
    else
      ⟨true, message, dry_run, some "sent", none,
        acts ++ [WebAction.pressEnter]⟩

/-! ## Concrete scenario data -/

/-- The main-panel window. -/
def winQQ : Window := ⟨"QQ", 0, 0, 800, 600⟩

/-- A chat window for contact Alice. -/
def winAlice : Window := ⟨"Alice", 10, 10, 400, 300⟩

/-- A chat window for contact Bob. -/
def winBob : Window := ⟨"Bob", 20, 20, 400, 300⟩

/-- Monitor configured to record only (no auto-reply). -/
def cfgLogOnly : MonitorConfig := ⟨none, none, 15, 5, 0, false⟩

/-- Monitor configured with an auto-reply and no reply budget. -/
def cfgAuto : MonitorConfig := ⟨none, some "收到", 15, 5, 0, false⟩

/-- Monitor configured with an auto-reply and `max_replies = 1`. -/
def cfgAutoOne : MonitorConfig := ⟨none, some "收到", 15, 5, 1, false⟩

/-- Monitor configured with an auto-reply and `dry_run = true`. -/
def cfgDryAuto : MonitorConfig := ⟨none, some "稍等", 15, 5, 0, true⟩

/-- Per-source environment where every window in `ws` is still present
after the delay and all permissions are granted. -/
def srcAll (ws : List Window) : String → SourceEnv := fun _ => ⟨0, ws, true, true⟩

/-- Polling cycle that sees the main panel plus Alice's window. -/
def cycleA : CycleEnv := ⟨true, [winQQ, winAlice], 0, srcAll [winQQ, winAlice]⟩

/-- Polling cycle that sees the main panel plus Alice's and Bob's windows. -/
def cycleAB : CycleEnv :=
  ⟨true, [winQQ, winAlice, winBob], 0, srcAll [winQQ, winAlice, winBob]⟩

/-- Polling cycle with no new window but a badge increase to 7. -/
def cycleBadgeOnly : CycleEnv := ⟨true, [winQQ], 7, srcAll [winQQ]⟩

/-- Per-source environment in which every window has disappeared. -/
def srcGone : SourceEnv := ⟨0, [], true, true⟩

/-- Browser page state where a search box resolves but no result selector
does. -/
def webEnvNoResult : WebSearchEnv :=
  ⟨fun s => if s == "input[type='search']" then .found 1 else .notFound,
   fun _ => .notFound⟩

/-- Page state in which only the fifth input selector resolves. -/
def locateFifth : String → LocateResult Nat :=
  fun s => if s == ".ql-editor" then .found 5 else .timeout

/-! ## Action classification -/

/-- Actions that are synthetic input directed at the source window. -/
def isInputAction : Action → Bool
  | .raiseWin _ => true
  | .clickInput _ => true
  | .clickAt _ _ => true
  | .pasteText _ => true
  | .pressReturn => true
  | _ => false

/-- The confirm (send) keystroke of the native backend. -/
def isPressReturn : Action → Bool
  | .pressReturn => true
  | _ => false

/-- The confirm (Enter) keypress of the browser backend. -/
def isPressEnter : WebAction → Bool
  | .pressEnter => true
  | _ => false

/-- The three in-loop skip checks of `monitor_chat` combined: a source is
processed unless it is a reserved name, fails the target filter, or is
already in the dedup set. -/
def willProcess (cfg : MonitorConfig) (st : MonitorState) (n : String) : Bool :=
  !(n == "" || n == "QQ" || n == "全网搜索") &&
  !(match cfg.target with
    | some t => !(strContains n t)
    | none => false) &&
  !(decide (n ∈ st.replied_windows))

/-! ## Structural lemmas about `processSource` -/

theorem processSource_state_cases (cfg : MonitorConfig) (env : SourceEnv)
    (st : MonitorState) (n : String) :
    (processSource cfg env st n).state = st ∨
    (processSource cfg env st n).state = addReplied st n := by
  unfold processSource
  repeat' split
  all_goals simp

theorem processSource_replied_mono (cfg : MonitorConfig) (env : SourceEnv)
    (st : MonitorState) (n : String) :
    st.replied_windows ⊆ (processSource cfg env st n).state.replied_windows := by
  rcases processSource_state_cases cfg env st n with h | h
  · rw [h]
    exact fun a ha => ha
  · rw [h]
    exact List.subset_append_left _ _

theorem processSource_event_some (cfg : MonitorConfig) (env : SourceEnv)
    (st : MonitorState) (n : String) (e : Event)
    (he : (processSource cfg env st n).event = some e) :
    e.sender = n ∧ e.type = "new_chat_window" ∧ n ∉ st.replied_windows := by
  unfold processSource at he
  repeat' split at he
  all_goals simp_all [baseEvent]
  all_goals (subst he; simp)

theorem processSource_replied_event (cfg : MonitorConfig) (env : SourceEnv)
    (st : MonitorState) (n : String) (e : Event)
    (he : (processSource cfg env st n).event = some e) (hr : e.replied = true) :
    (processSource cfg env st n).state.replied_windows =
      st.replied_windows ++ [n] := by
  unfold processSource at he ⊢
  repeat' split at he
  all_goals simp_all [baseEvent, addReplied]
  all_goals (subst he; simp_all)

theorem sentSenders_append (a b : List Event) :
    sentSenders (a ++ b) = sentSenders a ++ sentSenders b := by
  simp [sentSenders]

/-- The one-source event contributes nothing to the sent subset, or it
contributes exactly the fresh source name which lands in the dedup set. -/
theorem sentSenders_single (cfg : MonitorConfig) (env : SourceEnv)
    (st : MonitorState) (n : String) :
    sentSenders (processSource cfg env st n).event.toList = [] ∨
    (sentSenders (processSource cfg env st n).event.toList = [n] ∧
     n ∉ st.replied_windows ∧
     (processSource cfg env st n).state.replied_windows =
       st.replied_windows ++ [n]) := by
  cases he : (processSource cfg env st n).event with
  | none => left; simp [sentSenders]
  | some e =>
    by_cases hrep : e.replied
    · right
      obtain ⟨hs, _, hmem⟩ := processSource_event_some cfg env st n e he
      refine ⟨?_, hmem, processSource_replied_event cfg env st n e he hrep⟩
      simp [sentSenders, hrep, hs]
    · left; simp [sentSenders, hrep]

/-! ## Dedup invariant through the loop layers -/

theorem processNewWindows_dedup (cfg : MonitorConfig) (cenv : CycleEnv) :
    ∀ (names : List String) (st : MonitorState),
      st.replied_windows ⊆
        (processNewWindows cfg cenv st names).state.replied_windows ∧
      (∀ s ∈ sentSenders (processNewWindows cfg cenv st names).events,
         s ∉ st.replied_windows ∧
         s ∈ (processNewWindows cfg cenv st names).state.replied_windows) ∧
      (sentSenders (processNewWindows cfg cenv st names).events).Nodup := by
  intro names
  induction names with
  | nil => intro st; simp [processNewWindows, sentSenders]
  | cons n rest ih =>
    intro st
    cases hb : (processSource cfg (cenv.src n) st n).halt with
    | true =>
      have hres : processNewWindows cfg cenv st (n :: rest) =
          ⟨(processSource cfg (cenv.src n) st n).event.toList,
           (processSource cfg (cenv.src n) st n).state,
           (processSource cfg (cenv.src n) st n).actions, true⟩ := by
        simp [processNewWindows, hb]
      rw [hres]
      refine ⟨processSource_replied_mono cfg (cenv.src n) st n, ?_, ?_⟩
      · intro s hs
        simp only at hs
        rcases sentSenders_single cfg (cenv.src n) st n with h0 | ⟨h1, h2, h3⟩
        · rw [h0] at hs; cases hs
        · rw [h1] at hs
          have := List.mem_singleton.mp hs
          subst this
          exact ⟨h2, by simp only; rw [h3]; simp⟩
      · rcases sentSenders_single cfg (cenv.src n) st n with h0 | ⟨h1, _, _⟩
        · simp only; rw [h0]; exact List.nodup_nil
        · simp only; rw [h1]; simp
    | false =>
      have hres : processNewWindows cfg cenv st (n :: rest) =
          ⟨(processSource cfg (cenv.src n) st n).event.toList ++
             (processNewWindows cfg cenv
               (processSource cfg (cenv.src n) st n).state rest).events,
           (processNewWindows cfg cenv
             (processSource cfg (cenv.src n) st n).state rest).state,
           (processSource cfg (cenv.src n) st n).actions ++
             (processNewWindows cfg cenv
               (processSource cfg (cenv.src n) st n).state rest).actions,
           (processNewWindows cfg cenv
             (processSource cfg (cenv.src n) st n).state rest).halted⟩ := by
        simp [processNewWindows, hb]
      rw [hres]
      obtain ⟨ihmono, ihmem, ihnodup⟩ := ih (processSource cfg (cenv.src n) st n).state
      have hmono := processSource_replied_mono cfg (cenv.src n) st n
      refine ⟨fun a ha => ihmono (hmono ha), ?_, ?_⟩
      · intro s hs
        simp only at hs
        rw [sentSenders_append] at hs
        rcases List.mem_append.mp hs with hs | hs
        · rcases sentSenders_single cfg (cenv.src n) st n with h0 | ⟨h1, h2, h3⟩
          · rw [h0] at hs; cases hs
          · rw [h1] at hs
            have := List.mem_singleton.mp hs
            subst this
            refine ⟨h2, ihmono ?_⟩
            rw [h3]; simp
        · obtain ⟨hnot, hin⟩ := ihmem s hs
          exact ⟨fun hc => hnot (hmono hc), hin⟩
      · simp only
        rw [sentSenders_append]
        refine List.Nodup.append ?_ ihnodup ?_
        · rcases sentSenders_single cfg (cenv.src n) st n with h0 | ⟨h1, _, _⟩
          · rw [h0]; exact List.nodup_nil
          · rw [h1]; simp
        · intro s hs1 hs2
          obtain ⟨hnot, _⟩ := ihmem s hs2
          rcases sentSenders_single cfg (cenv.src n) st n with h0 | ⟨h1, _, h3⟩
          · rw [h0] at hs1; cases hs1
          · rw [h1] at hs1
            have := List.mem_singleton.mp hs1
            subst this
            exact hnot (by rw [h3]; simp)

theorem stepCycle_dedup (cfg : MonitorConfig) (cenv : CycleEnv)
    (st : MonitorState) :
    st.replied_windows ⊆ (stepCycle cfg cenv st).state.replied_windows ∧
    (∀ s ∈ sentSenders (stepCycle cfg cenv st).events,
       s ∉ st.replied_windows ∧
       s ∈ (stepCycle cfg cenv st).state.replied_windows) ∧
    (sentSenders (stepCycle cfg cenv st).events).Nodup := by
  unfold stepCycle
  split
  · simp [sentSenders]
  · dsimp only
    split
    · simp [sentSenders]
    · set st0 := if decide (cenv.badge > st.last_badge) = true
        then { st with last_badge := cenv.badge } else st with hst0
      have hrep0 : st0.replied_windows = st.replied_windows := by
        rw [hst0]; split <;> rfl
      obtain ⟨hmono, hmem, hnodup⟩ :=
        processNewWindows_dedup cfg cenv
          (newWindowNames cenv.windows st.known_windows) st0
      rw [hrep0] at hmono hmem
      split
      · exact ⟨hmono, hmem, hnodup⟩
      · exact ⟨hmono, hmem, hnodup⟩

theorem runMonitor_dedup (cfg : MonitorConfig) :
    ∀ (cycles : List CycleEnv) (st : MonitorState),
      st.replied_windows ⊆ (runMonitor cfg st cycles).state.replied_windows ∧
      (∀ s ∈ sentSenders (runMonitor cfg st cycles).events,
         s ∉ st.replied_windows ∧
         s ∈ (runMonitor cfg st cycles).state.replied_windows) ∧
      (sentSenders (runMonitor cfg st cycles).events).Nodup := by
  intro cycles
  induction cycles with
  | nil => intro st; simp [runMonitor, sentSenders]
  | cons c cs ih =>
    intro st
    simp only [runMonitor]
    obtain ⟨hmono, hmem, hnodup⟩ := stepCycle_dedup cfg c st
    split
    · exact ⟨hmono, hmem, hnodup⟩
    · obtain ⟨ihmono, ihmem, ihnodup⟩ := ih (stepCycle cfg c st).state
      refine ⟨fun a ha => ihmono (hmono ha), ?_, ?_⟩
      · intro s hs
        rw [sentSenders_append] at hs
        rcases List.mem_append.mp hs with hs | hs
        · obtain ⟨hnot, hin⟩ := hmem s hs
          exact ⟨hnot, ihmono hin⟩
        · obtain ⟨hnot, hin⟩ := ihmem s hs
          exact ⟨fun hc => hnot (hmono hc), hin⟩
      · rw [sentSenders_append]
        refine List.Nodup.append hnodup ihnodup ?_
        intro s hs1 hs2
        obtain ⟨_, hin⟩ := hmem s hs1
        obtain ⟨hnot, _⟩ := ihmem s hs2
        exact hnot hin

theorem processSource_skip_replied (cfg : MonitorConfig) (env : SourceEnv)
    (st : MonitorState) (n : String) (h : n ∈ st.replied_windows) :
    processSource cfg env st n = ⟨none, st, [], false⟩ := by
  unfold processSource
  repeat' split
  all_goals simp_all

/-- C1: within one monitor session, a source already in the dedup set is
skipped without any effect, the dedup set `replied_windows` only grows
across polling cycles, and each distinct source identity appears at most
once among the senders of the replied ("sent") subset of the recorded
events. -/
theorem dedup_at_most_one_reply :
    (∀ (cfg : MonitorConfig) (cenv : CycleEnv) (st : MonitorState),
       st.replied_windows ⊆ (stepCycle cfg cenv st).state.replied_windows) ∧
    (∀ (cfg : MonitorConfig) (env : SourceEnv) (st : MonitorState) (n : String),
       n ∈ st.replied_windows → processSource cfg env st n = ⟨none, st, [], false⟩) ∧
    (∀ (cfg : MonitorConfig) (ws : List Window) (b : Int) (cycles : List CycleEnv),
       (sentSenders (runMonitor cfg (initialState ws b) cycles).events).Nodup) :=
  ⟨fun cfg cenv st => (stepCycle_dedup cfg cenv st).1,
   processSource_skip_replied,
   fun cfg ws b cycles => (runMonitor_dedup cfg cycles (initialState ws b)).2.2⟩

/-- Witness for C1 at concrete inputs: a state that already replied to
Alice skips her, and a concrete session's sent senders are duplicate-free. -/
theorem dedup_at_most_one_reply_witness :
    ("Alice" ∈ (⟨["QQ"], 0, 1, ["Alice"]⟩ : MonitorState).replied_windows) ∧
    (processSource cfgAuto (srcAll [winAlice] "Alice")
        ⟨["QQ"], 0, 1, ["Alice"]⟩ "Alice" =
      ⟨none, ⟨["QQ"], 0, 1, ["Alice"]⟩, [], false⟩) ∧
    (sentSenders (runMonitor cfgAuto (initialState [winQQ] 0) [cycleAB]).events).Nodup :=
  ⟨by decide,
   dedup_at_most_one_reply.2.1 cfgAuto (srcAll [winAlice] "Alice")
     ⟨["QQ"], 0, 1, ["Alice"]⟩ "Alice" (by decide),
   dedup_at_most_one_reply.2.2 cfgAuto [winQQ] 0 [cycleAB]⟩

/-! ## Reply-count budget (C9) -/

theorem processSource_count_cases (cfg : MonitorConfig) (env : SourceEnv)
    (st : MonitorState) (n : String) :
    (processSource cfg env st n).state.reply_count = st.reply_count ∨
    (processSource cfg env st n).state.reply_count = st.reply_count + 1 := by
  rcases processSource_state_cases cfg env st n with h | h
  · rw [h]; left; rfl
  · rw [h]; right; rfl

theorem processSource_halt_spec (cfg : MonitorConfig) (env : SourceEnv)
    (st : MonitorState) (n : String) :
    (processSource cfg env st n).halt =
      haltAfterEvent cfg (processSource cfg env st n).state ∨
    ((processSource cfg env st n).halt = false ∧
     (processSource cfg env st n).state = st) := by
  unfold processSource
  repeat' split
  all_goals simp [addReplied]

theorem haltAfterEvent_false_iff (cfg : MonitorConfig) (st : MonitorState) :
    haltAfterEvent cfg st = false ↔
      (cfg.max_replies = 0 ∨ st.reply_count < cfg.max_replies) := by
  simp only [haltAfterEvent, decide_eq_false_iff_not]
  omega

theorem processSource_budget (cfg : MonitorConfig) (env : SourceEnv)
    (st : MonitorState) (n : String) (hN : cfg.max_replies ≠ 0)
    (h : st.reply_count < cfg.max_replies) :
    (processSource cfg env st n).state.reply_count ≤ cfg.max_replies ∧
    ((processSource cfg env st n).halt = false →
      (processSource cfg env st n).state.reply_count < cfg.max_replies) := by
  rcases processSource_count_cases cfg env st n with hc | hc
  · exact ⟨by omega, fun _ => by omega⟩
  · refine ⟨by omega, fun hh => ?_⟩
    rcases processSource_halt_spec cfg env st n with hs | ⟨_, hs⟩
    · rw [hh] at hs
      rcases (haltAfterEvent_false_iff cfg _).mp hs.symm with h0 | h0
      · exact absurd h0 hN
      · exact h0
    · rw [hs]; exact h

theorem processNewWindows_budget (cfg : MonitorConfig) (cenv : CycleEnv)
    (hN : cfg.max_replies ≠ 0) :
    ∀ (names : List String) (st : MonitorState),
      st.reply_count < cfg.max_replies →
      (processNewWindows cfg cenv st names).state.reply_count ≤ cfg.max_replies ∧
      ((processNewWindows cfg cenv st names).halted = false →
        (processNewWindows cfg cenv st names).state.reply_count <
          cfg.max_replies) := by
  intro names
  induction names with
  | nil =>
    intro st h
    exact ⟨Nat.le_of_lt h, fun _ => h⟩
  | cons n rest ih =>
    intro st h
    cases hb : (processSource cfg (cenv.src n) st n).halt with
    | true =>
      have hres : processNewWindows cfg cenv st (n :: rest) =
          ⟨(processSource cfg (cenv.src n) st n).event.toList,
           (processSource cfg (cenv.src n) st n).state,
           (processSource cfg (cenv.src n) st n).actions, true⟩ := by
        simp [processNewWindows, hb]
      rw [hres]
      obtain ⟨t1, _⟩ := processSource_budget cfg (cenv.src n) st n hN h
      exact ⟨t1, fun hc => by cases hc⟩
    | false =>
      have hres : processNewWindows cfg cenv st (n :: rest) =
          ⟨(processSource cfg (cenv.src n) st n).event.toList ++
             (processNewWindows cfg cenv
               (processSource cfg (cenv.src n) st n).state rest).events,
           (processNewWindows cfg cenv
             (processSource cfg (cenv.src n) st n).state rest).state,
           (processSource cfg (cenv.src n) st n).actions ++
             (processNewWindows cfg cenv
               (processSource cfg (cenv.src n) st n).state rest).actions,
           (processNewWindows cfg cenv
             (processSource cfg (cenv.src n) st n).state rest).halted⟩ := by
        simp [processNewWindows, hb]
      rw [hres]
      obtain ⟨_, t2⟩ := processSource_budget cfg (cenv.src n) st n hN h
      exact ih _ (t2 hb)

theorem stepCycle_budget (cfg : MonitorConfig) (cenv : CycleEnv)
    (st : MonitorState) (hN : cfg.max_replies ≠ 0)
    (h : st.reply_count < cfg.max_replies) :
    (stepCycle cfg cenv st).state.reply_count ≤ cfg.max_replies ∧
    ((stepCycle cfg cenv st).halted = false →
      (stepCycle cfg cenv st).state.reply_count < cfg.max_replies) := by
  unfold stepCycle
  split
  · exact ⟨Nat.le_of_lt h, fun _ => h⟩
  · dsimp only
    split
    · exact ⟨Nat.le_of_lt h, fun _ => h⟩
    · set st0 := if decide (cenv.badge > st.last_badge) = true
        then { st with last_badge := cenv.badge } else st with hst0
      have hc0 : st0.reply_count = st.reply_count := by
        rw [hst0]; split <;> rfl
      obtain ⟨t1, t2⟩ := processNewWindows_budget cfg cenv hN
        (newWindowNames cenv.windows st.known_windows) st0 (by rw [hc0]; exact h)
      split
      · exact ⟨t1, t2⟩
      · rename_i hnh
        exact ⟨t1, fun _ => t2 (Bool.eq_false_iff.mpr hnh)⟩

theorem runMonitor_budget (cfg : MonitorConfig) (hN : cfg.max_replies ≠ 0) :
    ∀ (cycles : List CycleEnv) (st : MonitorState),
      st.reply_count < cfg.max_replies →
      (runMonitor cfg st cycles).state.reply_count ≤ cfg.max_replies := by
  intro cycles
  induction cycles with
  | nil => intro st h; exact Nat.le_of_lt h
  | cons c cs ih =>
    intro st h
    obtain ⟨t1, t2⟩ := stepCycle_budget cfg c st hN h
    cases hb : (stepCycle cfg c st).halted with
    | true =>
      have hres : runMonitor cfg st (c :: cs) =
          ⟨(stepCycle cfg c st).events, (stepCycle cfg c st).state,
           (stepCycle cfg c st).actions⟩ := by
        simp [runMonitor, hb]
      rw [hres]
      exact t1
    | false =>
      have hres : runMonitor cfg st (c :: cs) =
          ⟨(stepCycle cfg c st).events ++
             (runMonitor cfg (stepCycle cfg c st).state cs).events,
           (runMonitor cfg (stepCycle cfg c st).state cs).state,
           (stepCycle cfg c st).actions ++
             (runMonitor cfg (stepCycle cfg c st).state cs).actions⟩ := by
        simp [runMonitor, hb]
      rw [hres]
      exact ih _ (t2 hb)

/-- C9: with a positive `max_replies` bound, a polling cycle that does not
halt the session leaves the reply count strictly below the bound (so the
loop returns as soon as the count reaches it), the count never exceeds the
bound over a whole session, and in the concrete scenario with
`max_replies = 1` and two fresh sources detected in one cycle exactly one
reply is sent, after which the session ends without processing the second
source or any later cycle. -/
theorem max_replies_terminates :
    (∀ (cfg : MonitorConfig) (cenv : CycleEnv) (st : MonitorState),
       cfg.max_replies ≠ 0 → st.reply_count < cfg.max_replies →
       (stepCycle cfg cenv st).halted = false →
       (stepCycle cfg cenv st).state.reply_count < cfg.max_replies) ∧
    (∀ (cfg : MonitorConfig) (ws : List Window) (b : Int) (cycles : List CycleEnv),
       cfg.max_replies ≠ 0 →
       (runMonitor cfg (initialState ws b) cycles).state.reply_count ≤
         cfg.max_replies) ∧
    ((runMonitor cfgAutoOne (initialState [winQQ] 0) [cycleAB, cycleAB]).events =
       [{ baseEvent "Alice" with replied := true, reply_message := some "收到" }] ∧
     (runMonitor cfgAutoOne (initialState [winQQ] 0)
        [cycleAB, cycleAB]).state.reply_count = 1) :=
  ⟨fun cfg cenv st hN h => (stepCycle_budget cfg cenv st hN h).2,
   fun cfg ws b cycles hN =>
     runMonitor_budget cfg hN cycles (initialState ws b) (Nat.pos_of_ne_zero hN),
   by decide⟩

/-- Witness for C9 at concrete inputs. -/
theorem max_replies_terminates_witness :
    (stepCycle cfgAutoOne cycleBadgeOnly (initialState [winQQ] 0)).state.reply_count < 1 ∧
    (runMonitor cfgAutoOne (initialState [winQQ] 0) [cycleAB]).state.reply_count ≤ 1 :=
  ⟨max_replies_terminates.1 cfgAutoOne cycleBadgeOnly (initialState [winQQ] 0)
     (by decide) (by decide) (by decide),
   max_replies_terminates.2.1 cfgAutoOne [winQQ] 0 [cycleAB] (by decide)⟩

/-! ## Loop unfolding equations -/

theorem processNewWindows_cons_halt (cfg : MonitorConfig) (cenv : CycleEnv)
    (st : MonitorState) (n : String) (rest : List String)
    (hb : (processSource cfg (cenv.src n) st n).halt = true) :
    processNewWindows cfg cenv st (n :: rest) =
      ⟨(processSource cfg (cenv.src n) st n).event.toList,
       (processSource cfg (cenv.src n) st n).state,
       (processSource cfg (cenv.src n) st n).actions, true⟩ := by
  simp [processNewWindows, hb]

theorem processNewWindows_cons_go (cfg : MonitorConfig) (cenv : CycleEnv)
    (st : MonitorState) (n : String) (rest : List String)
    (hb : (processSource cfg (cenv.src n) st n).halt = false) :
    processNewWindows cfg cenv st (n :: rest) =
      ⟨(processSource cfg (cenv.src n) st n).event.toList ++
         (processNewWindows cfg cenv
           (processSource cfg (cenv.src n) st n).state rest).events,
       (processNewWindows cfg cenv
         (processSource cfg (cenv.src n) st n).state rest).state,
       (processSource cfg (cenv.src n) st n).actions ++
         (processNewWindows cfg cenv
           (processSource cfg (cenv.src n) st n).state rest).actions,
       (processNewWindows cfg cenv
         (processSource cfg (cenv.src n) st n).state rest).halted⟩ := by
  simp [processNewWindows, hb]

theorem runMonitor_cons_halt (cfg : MonitorConfig) (c : CycleEnv)
    (cs : List CycleEnv) (st : MonitorState)
    (hb : (stepCycle cfg c st).halted = true) :
    runMonitor cfg st (c :: cs) =
      ⟨(stepCycle cfg c st).events, (stepCycle cfg c st).state,
       (stepCycle cfg c st).actions⟩ := by
  simp [runMonitor, hb]

theorem runMonitor_cons_go (cfg : MonitorConfig) (c : CycleEnv)
    (cs : List CycleEnv) (st : MonitorState)
    (hb : (stepCycle cfg c st).halted = false) :
    runMonitor cfg st (c :: cs) =
      ⟨(stepCycle cfg c st).events ++
         (runMonitor cfg (stepCycle cfg c st).state cs).events,
       (runMonitor cfg (stepCycle cfg c st).state cs).state,
       (stepCycle cfg c st).actions ++
         (runMonitor cfg (stepCycle cfg c st).state cs).actions⟩ := by
  simp [runMonitor, hb]

/-- One polling cycle either emits nothing, or exactly forwards the events
and actions of the source loop run from `st` with at most the badge field
refreshed. -/
theorem stepCycle_events_actions (cfg : MonitorConfig) (cenv : CycleEnv)
    (st : MonitorState) :
    ((stepCycle cfg cenv st).events = [] ∧ (stepCycle cfg cenv st).actions = []) ∨
    ∃ st0, (st0 = st ∨ st0 = { st with last_badge := cenv.badge }) ∧
      (stepCycle cfg cenv st).events =
        (processNewWindows cfg cenv st0
          (newWindowNames cenv.windows st.known_windows)).events ∧
      (stepCycle cfg cenv st).actions =
        (processNewWindows cfg cenv st0
          (newWindowNames cenv.windows st.known_windows)).actions := by
  unfold stepCycle
  split
  · left; exact ⟨rfl, rfl⟩
  · dsimp only
    split
    · left; exact ⟨rfl, rfl⟩
    · refine Or.inr ⟨(if decide (cenv.badge > st.last_badge) = true
          then { st with last_badge := cenv.badge } else st), ?_, ?_, ?_⟩
      · split
        · right; rfl
        · left; rfl
      · split <;> split <;> rfl
      · split <;> split <;> rfl

/-! ## C2: when the reply counter moves -/

/-- C2 (amended): per processed source, the reply counter is incremented
exactly when auto-reply is configured, the source window is still present
after the delay, the paste succeeds, and either dry-run mode is set (a
typed-but-not-sent completion also increments it) or the confirm key
succeeds; on a permission failure or a vanished window it is unchanged. -/
theorem reply_count_increment_characterization :
    ∀ (cfg : MonitorConfig) (env : SourceEnv) (st : MonitorState) (n : String),
      (processSource cfg env st n).state.reply_count =
        st.reply_count +
          (if willProcess cfg st n = true ∧ cfg.auto_reply.isSome = true ∧
              (env.windows_after_delay.find? fun w => w.name == n).isSome = true ∧
              env.paste_ok = true ∧ (cfg.dry_run = true ∨ env.send_ok = true)
           then 1 else 0) := by
  intro cfg env st n
  unfold processSource willProcess
  repeat' split
  all_goals simp_all [addReplied]
  all_goals tauto

/-- C2 (counterexample to the claim as stated): processing a fresh source
in dry-run mode issues no confirm key — the recorded event carries
`note = "dry_run"` and `replied = false` — yet the reply counter is
incremented from 0 to 1. -/
theorem reply_count_incremented_in_dry_run :
    (processSource cfgDryAuto (srcAll [winAlice] "Alice")
        (initialState [winQQ] 0) "Alice").state.reply_count = 1 ∧
    ((processSource cfgDryAuto (srcAll [winAlice] "Alice")
        (initialState [winQQ] 0) "Alice").actions.all
       fun a => !(isPressReturn a)) = true ∧
    (processSource cfgDryAuto (srcAll [winAlice] "Alice")
        (initialState [winQQ] 0) "Alice").event =
      some { baseEvent "Alice" with note := some "dry_run" } := by
  decide

/-! ## C8: source window gone after the delay -/

/-- C8: when a processed source's window no longer exists after the
jittered delay, the monitor records an event with the window-closed error
and `replied = false`, issues no input action to that source, leaves the
session state unchanged, and does not halt while the reply budget is not
yet reached (so later sources and cycles continue). -/
theorem reverify_window_gone_skips :
    ∀ (cfg : MonitorConfig) (env : SourceEnv) (st : MonitorState)
      (n reply : String),
      n ≠ "" → n ≠ "QQ" → n ≠ "全网搜索" →
      (match cfg.target with
       | some t => !(strContains n t)
       | none => false) = false →
      n ∉ st.replied_windows →
      cfg.auto_reply = some reply →
      env.windows_after_delay.find? (fun w => w.name == n) = none →
      (processSource cfg env st n).event =
          some { baseEvent n with error := some "窗口已关闭" } ∧
      (processSource cfg env st n).state = st ∧
      ((processSource cfg env st n).actions.all
         fun a => !(isInputAction a)) = true ∧
      ((cfg.max_replies = 0 ∨ st.reply_count < cfg.max_replies) →
        (processSource cfg env st n).halt = false) := by
  intro cfg env st n reply h1 h2 h3 ht hr har hfind
  unfold processSource
  repeat' split
  all_goals simp_all [isInputAction, haltAfterEvent_false_iff]

/-- Witness for C8 at concrete inputs. -/
theorem reverify_window_gone_skips_witness :
    (processSource cfgAuto srcGone (initialState [winQQ] 0) "Alice").event =
        some { baseEvent "Alice" with error := some "窗口已关闭" } ∧
    (processSource cfgAuto srcGone (initialState [winQQ] 0) "Alice").state =
      initialState [winQQ] 0 ∧
    ((processSource cfgAuto srcGone (initialState [winQQ] 0) "Alice").actions.all
       fun a => !(isInputAction a)) = true ∧
    (processSource cfgAuto srcGone (initialState [winQQ] 0) "Alice").halt = false := by
  have h := reverify_window_gone_skips cfgAuto srcGone (initialState [winQQ] 0)
    "Alice" "收到" (by decide) (by decide) (by decide) (by decide) (by decide)
    rfl rfl
  exact ⟨h.1, h.2.1, h.2.2.1, h.2.2.2 (Or.inl rfl)⟩

/-! ## C10: non-numeric badge strings -/

/-- C10: a badge-reading result string that does not parse as a base-10
integer makes `get_dock_badge` return 0, so it can never register as a
badge increase relative to a non-negative previous badge value. -/
theorem badge_nonnumeric_returns_zero :
    ∀ (s : String) (last : Int), pyIntOfString s = none → 0 ≤ last →
      get_dock_badge s = 0 ∧ ¬(get_dock_badge s > last) := by
  intro s last hp hl
  have h0 : get_dock_badge s = 0 := by simp [get_dock_badge, hp]
  exact ⟨h0, by rw [h0]; omega⟩

/-- Witness for C10 at the "99+" overflow label. -/
theorem badge_nonnumeric_returns_zero_witness :
    get_dock_badge "99+" = 0 ∧ ¬(get_dock_badge "99+" > 0) :=
  badge_nonnumeric_returns_zero "99+" 0 (by decide) (by decide)

/-! ## C3: window-set delta -/

theorem window_delta_finset (ws : List Window) (known : List String) :
    (newWindowNames ws known).toFinset =
      ((ws.map Window.name).toFinset \ known.toFinset) \
        reserved_names.toFinset := by
  ext n
  simp [newWindowNames, List.mem_filter, List.mem_dedup, and_assoc]

/-- C3: the new-activity sources of a cycle are exactly the current window
identities minus the known identities minus the reserved structural
names, and in the concrete scenario with known windows QQ and a poll
seeing QQ and Alice, exactly one new-window event for Alice is recorded. -/
theorem window_delta_and_scenario_a :
    (∀ (ws : List Window) (known : List String),
       (newWindowNames ws known).toFinset =
         ((ws.map Window.name).toFinset \ known.toFinset) \
           reserved_names.toFinset) ∧
    (stepCycle cfgLogOnly cycleA (initialState [winQQ] 0)).events =
      [baseEvent "Alice"] :=
  ⟨window_delta_finset, by decide⟩

/-! ## C4: badge increases write no event -/

theorem events_all_type_toList (cfg : MonitorConfig) (env : SourceEnv)
    (st : MonitorState) (n : String) :
    (((processSource cfg env st n).event.toList).all
       fun e => e.type == "new_chat_window") = true := by
  cases he : (processSource cfg env st n).event with
  | none => rfl
  | some e =>
    have ht := (processSource_event_some cfg env st n e he).2.1
    simp [ht]

theorem processNewWindows_event_types (cfg : MonitorConfig) (cenv : CycleEnv) :
    ∀ (names : List String) (st : MonitorState),
      ((processNewWindows cfg cenv st names).events.all
         fun e => e.type == "new_chat_window") = true := by
  intro names
  induction names with
  | nil => intro st; rfl
  | cons n rest ih =>
    intro st
    cases hb : (processSource cfg (cenv.src n) st n).halt with
    | true =>
      rw [processNewWindows_cons_halt cfg cenv st n rest hb]
      exact events_all_type_toList cfg (cenv.src n) st n
    | false =>
      rw [processNewWindows_cons_go cfg cenv st n rest hb]
      simp only
      rw [List.all_append]
      rw [events_all_type_toList cfg (cenv.src n) st n, ih]
      rfl

theorem stepCycle_event_types (cfg : MonitorConfig) (cenv : CycleEnv)
    (st : MonitorState) :
    ((stepCycle cfg cenv st).events.all
       fun e => e.type == "new_chat_window") = true := by
  rcases stepCycle_events_actions cfg cenv st with ⟨he, _⟩ | ⟨st0, _, he, _⟩
  · rw [he]; rfl
  · rw [he]; exact processNewWindows_event_types cfg cenv _ st0

/-- C4 (amended): a badge increase produces no entry in the event log at
all — the code only writes a log line.  Every recorded event is of the
new-chat-window kind (so no BadgeIncrease event exists, and a badge
increase can never yield a replied=true event), and a cycle whose only
signal is a badge increase records no event, issues no action, changes no
reply state, and never halts the session. -/
theorem badge_increase_logged_only :
    (∀ (cfg : MonitorConfig) (cenv : CycleEnv) (st : MonitorState),
       ((stepCycle cfg cenv st).events.all
          fun e => e.type == "new_chat_window") = true) ∧
    (∀ (cfg : MonitorConfig) (cenv : CycleEnv) (st : MonitorState),
       newWindowNames cenv.windows st.known_windows = [] →
       (stepCycle cfg cenv st).events = [] ∧
       (stepCycle cfg cenv st).actions = [] ∧
       (stepCycle cfg cenv st).state.reply_count = st.reply_count ∧
       (stepCycle cfg cenv st).state.replied_windows = st.replied_windows ∧
       (stepCycle cfg cenv st).halted = false) := by
  refine ⟨stepCycle_event_types, ?_⟩
  intro cfg cenv st hnews
  unfold stepCycle
  split
  · exact ⟨rfl, rfl, rfl, rfl, rfl⟩
  · dsimp only
    rw [hnews]
    split
    · exact ⟨rfl, rfl, rfl, rfl, rfl⟩
    · dsimp only [processNewWindows]
      split
      · rename_i hcontra
        simp at hcontra
      · refine ⟨rfl, rfl, ?_, ?_, rfl⟩
        · dsimp only
          split <;> rfl
        · dsimp only
          split <;> rfl

/-- C4 (counterexample to the claim as stated): a cycle in which the badge
rises from 0 to 7 with no new window appends nothing to the event log —
in particular not the one BadgeIncrease event the claim requires. -/
theorem badge_increase_writes_no_event :
    (initialState [winQQ] 0).last_badge < cycleBadgeOnly.badge ∧
    (stepCycle cfgAuto cycleBadgeOnly (initialState [winQQ] 0)).events = [] ∧
    (stepCycle cfgAuto cycleBadgeOnly
        (initialState [winQQ] 0)).state.last_badge = 7 := by
  decide

/-- Witness for C4 (amended) at concrete inputs. -/
theorem badge_increase_logged_only_witness :
    ((stepCycle cfgAuto cycleBadgeOnly (initialState [winQQ] 0)).events.all
       fun e => e.type == "new_chat_window") = true ∧
    ((stepCycle cfgAuto cycleBadgeOnly (initialState [winQQ] 0)).events = [] ∧
     (stepCycle cfgAuto cycleBadgeOnly (initialState [winQQ] 0)).actions = [] ∧
     (stepCycle cfgAuto cycleBadgeOnly
         (initialState [winQQ] 0)).state.reply_count =
       (initialState [winQQ] 0).reply_count ∧
     (stepCycle cfgAuto cycleBadgeOnly
         (initialState [winQQ] 0)).state.replied_windows =
       (initialState [winQQ] 0).replied_windows ∧
     (stepCycle cfgAuto cycleBadgeOnly (initialState [winQQ] 0)).halted = false) :=
  ⟨badge_increase_logged_only.1 cfgAuto cycleBadgeOnly (initialState [winQQ] 0),
   badge_increase_logged_only.2 cfgAuto cycleBadgeOnly (initialState [winQQ] 0)
     (by decide)⟩

/-! ## C5: resilient locator ordering -/

theorem tryStrategies_first_success {α : Type} (locate : String → LocateResult α) :
    ∀ (l : List String) (s : String) (h : α),
      tryStrategies locate l = some (s, h) →
      locate s = .found h ∧
      ∃ pre post, l = pre ++ s :: post ∧
        ∀ t ∈ pre, ∀ h2, locate t ≠ .found h2 := by
  intro l
  induction l with
  | nil => intro s h hh; cases hh
  | cons a rest ih =>
    intro s h hh
    unfold tryStrategies at hh
    split at hh
    · rename_i hd heq
      simp only [Option.some.injEq, Prod.mk.injEq] at hh
      obtain ⟨rfl, rfl⟩ := hh
      exact ⟨heq, [], rest, rfl, by intro t ht; cases ht⟩
    · rename_i heq
      obtain ⟨h1, pre, post, hpp, hpre⟩ := ih s h hh
      refine ⟨h1, a :: pre, post, by rw [hpp]; rfl, ?_⟩
      intro t ht h2
      rcases List.mem_cons.mp ht with rfl | ht2
      · exact fun hc => heq h2 hc
      · exact hpre t ht2 h2

theorem attempted_front_of_list {α : Type} (locate : String → LocateResult α) :
    ∀ l : List String, attemptedStrategies locate l <+: l := by
  intro l
  induction l with
  | nil => exact ⟨[], rfl⟩
  | cons a rest ih =>
    unfold attemptedStrategies
    split
    · exact ⟨rest, rfl⟩
    · obtain ⟨t, ht⟩ := ih
      exact ⟨t, by rw [List.cons_append, ht]⟩

theorem attempted_dropLast_failed {α : Type} (locate : String → LocateResult α) :
    ∀ l : List String, ∀ t ∈ (attemptedStrategies locate l).dropLast,
      ∀ h2, locate t ≠ .found h2 := by
  intro l
  induction l with
  | nil => intro t ht; cases ht
  | cons a rest ih =>
    intro t ht h2
    unfold attemptedStrategies at ht
    split at ht
    · simp at ht
    · rename_i heq
      cases hA : attemptedStrategies locate rest with
      | nil => rw [hA] at ht; simp at ht
      | cons b bs =>
        rw [hA, List.dropLast_cons₂] at ht
        rcases List.mem_cons.mp ht with rfl | ht2
        · exact fun hc => heq h2 hc
        · exact ih t (by rw [hA]; exact ht2) h2

theorem attempted_nodup {α : Type} (locate : String → LocateResult α)
    (l : List String) (h : l.Nodup) : (attemptedStrategies locate l).Nodup :=
  h.sublist (attempted_front_of_list locate l).sublist

theorem text_selector_ne (name s : String)
    (hs : s.data.head? = some '.' ∨ s.data.head? = some '[') :
    "text=" ++ name ≠ s := by
  intro h
  obtain ⟨cs⟩ := name
  have hd : s.data.head? = some 't' := by rw [← h]; rfl
  rcases hs with hs | hs <;> rw [hs] at hd <;> exact absurd hd (by decide)

theorem result_selectors_nodup (name : String) :
    (result_selectors name).Nodup := by
  refine List.nodup_cons.mpr ⟨?_, by decide⟩
  intro hmem
  rcases List.mem_cons.mp hmem with h | h
  · exact text_selector_ne name ".search-result-item:first-child"
      (Or.inl (by decide)) h
  · rcases List.mem_cons.mp h with h | h
    · exact text_selector_ne name "[class*='search-result'] >> nth=0"
        (Or.inr (by decide)) h
    · cases h

/-- C5: the fallback loop tries the selector list strictly in order:
a success is located at a position all of whose predecessors failed, the
attempted selectors form a prefix of the list in which every non-final
entry failed (so selector i+1 is only reached after selector i timed out
or was not found, and nothing is tried after the first success), a
duplicate-free list is never retried within one resolution, and the
concrete selector lists of the source are duplicate-free. -/
theorem locator_first_success_ordering :
    (∀ (α : Type) (locate : String → LocateResult α) (l : List String)
       (s : String) (h : α),
       tryStrategies locate l = some (s, h) →
       locate s = .found h ∧
       ∃ pre post, l = pre ++ s :: post ∧
         ∀ t ∈ pre, ∀ h2, locate t ≠ .found h2) ∧
    (∀ (α : Type) (locate : String → LocateResult α) (l : List String),
       attemptedStrategies locate l <+: l) ∧
    (∀ (α : Type) (locate : String → LocateResult α) (l : List String),
       ∀ t ∈ (attemptedStrategies locate l).dropLast,
         ∀ h2, locate t ≠ .found h2) ∧
    (∀ (α : Type) (locate : String → LocateResult α) (l : List String),
       l.Nodup → (attemptedStrategies locate l).Nodup) ∧
    (input_selectors.Nodup ∧ search_selectors.Nodup ∧
     ∀ name, (result_selectors name).Nodup) :=
  ⟨fun _ locate l => tryStrategies_first_success locate l,
   fun _ locate l => attempted_front_of_list locate l,
   fun _ locate l => attempted_dropLast_failed locate l,
   fun _ locate l => attempted_nodup locate l,
   by decide, by decide, result_selectors_nodup⟩

/-- Witness for C5 at a concrete page state over the real selector list. -/
theorem locator_first_success_ordering_witness :
    (locateFifth ".ql-editor" = .found 5 ∧
     ∃ pre post, input_selectors = pre ++ ".ql-editor" :: post ∧
       ∀ t ∈ pre, ∀ h2, locateFifth t ≠ .found h2) ∧
    (attemptedStrategies locateFifth input_selectors).Nodup :=
  ⟨locator_first_success_ordering.1 Nat locateFifth input_selectors
     ".ql-editor" 5 (by decide),
   locator_first_success_ordering.2.2.2.1 Nat locateFifth input_selectors
     (by decide)⟩

/-! ## C6: dry-run never sends -/

theorem processSource_dry_event (cfg : MonitorConfig) (env : SourceEnv)
    (st : MonitorState) (n : String) (hd : cfg.dry_run = true) :
    ∀ e, (processSource cfg env st n).event = some e → e.replied = false := by
  intro e he
  unfold processSource at he
  repeat' split at he
  all_goals simp_all [baseEvent]
  all_goals (subst he; simp_all)

theorem processSource_dry_actions (cfg : MonitorConfig) (env : SourceEnv)
    (st : MonitorState) (n : String) (hd : cfg.dry_run = true) :
    ((processSource cfg env st n).actions.all
       fun a => !(isPressReturn a)) = true := by
  unfold processSource
  repeat' split
  all_goals simp_all [isPressReturn]

theorem processNewWindows_dry (cfg : MonitorConfig) (cenv : CycleEnv)
    (hd : cfg.dry_run = true) :
    ∀ (names : List String) (st : MonitorState),
      ((processNewWindows cfg cenv st names).events.all
         fun e => !e.replied) = true ∧
      ((processNewWindows cfg cenv st names).actions.all
         fun a => !(isPressReturn a)) = true := by
  intro names
  induction names with
  | nil => intro st; exact ⟨rfl, rfl⟩
  | cons n rest ih =>
    intro st
    have hev : (((processSource cfg (cenv.src n) st n).event.toList).all
        fun e => !e.replied) = true := by
      cases he : (processSource cfg (cenv.src n) st n).event with
      | none => rfl
      | some e =>
        have := processSource_dry_event cfg (cenv.src n) st n hd e he
        simp [this]
    cases hb : (processSource cfg (cenv.src n) st n).halt with
    | true =>
      rw [processNewWindows_cons_halt cfg cenv st n rest hb]
      exact ⟨hev, processSource_dry_actions cfg (cenv.src n) st n hd⟩
    | false =>
      rw [processNewWindows_cons_go cfg cenv st n rest hb]
      obtain ⟨ih1, ih2⟩ := ih (processSource cfg (cenv.src n) st n).state
      constructor
      · simp only
        rw [List.all_append, hev, ih1]
        rfl
      · simp only
        rw [List.all_append, processSource_dry_actions cfg (cenv.src n) st n hd, ih2]
        rfl

theorem stepCycle_dry (cfg : MonitorConfig) (cenv : CycleEnv)
    (st : MonitorState) (hd : cfg.dry_run = true) :
    ((stepCycle cfg cenv st).events.all fun e => !e.replied) = true ∧
    ((stepCycle cfg cenv st).actions.all fun a => !(isPressReturn a)) = true := by
  rcases stepCycle_events_actions cfg cenv st with ⟨he, ha⟩ | ⟨st0, _, he, ha⟩
  · rw [he, ha]; exact ⟨rfl, rfl⟩
  · rw [he, ha]
    exact processNewWindows_dry cfg cenv hd _ st0

theorem runMonitor_dry (cfg : MonitorConfig) (hd : cfg.dry_run = true) :
    ∀ (cycles : List CycleEnv) (st : MonitorState),
      ((runMonitor cfg st cycles).events.all fun e => !e.replied) = true ∧
      ((runMonitor cfg st cycles).actions.all
         fun a => !(isPressReturn a)) = true := by
  intro cycles
  induction cycles with
  | nil => intro st; exact ⟨rfl, rfl⟩
  | cons c cs ih =>
    intro st
    obtain ⟨h1, h2⟩ := stepCycle_dry cfg c st hd
    cases hb : (stepCycle cfg c st).halted with
    | true =>
      rw [runMonitor_cons_halt cfg c cs st hb]
      exact ⟨h1, h2⟩
    | false =>
      rw [runMonitor_cons_go cfg c cs st hb]
      obtain ⟨ih1, ih2⟩ := ih (stepCycle cfg c st).state
      constructor
      · simp only
        rw [List.all_append, h1, ih1]
        rfl
      · simp only
        rw [List.all_append, h2, ih2]
        rfl

/-- C6 (amended): dry-run never issues the confirm key in the native
backend, the browser backend, or the monitor's reply path, and no
dry-run monitor event carries replied=true; a dry-run send reports
`typed_not_sent` with success when it reaches the typing stage, but the
failure paths (QQ not running, permission denied, input box not found)
return success=false with an error and no status at all. -/
theorem dry_run_never_sends :
    (∀ (env : NativeEnv) (msg : String),
       ((send_message env msg true).actions.all
          fun a => !(isPressReturn a)) = true ∧
       (((send_message env msg true).status = some "typed_not_sent" ∧
         (send_message env msg true).success = true) ∨
        ((send_message env msg true).status = none ∧
         (send_message env msg true).success = false))) ∧
    (∀ (wenv : WebSendEnv) (msg : String),
       ((web_send_message wenv msg true).actions.all
          fun a => !(isPressEnter a)) = true ∧
       (((web_send_message wenv msg true).status = some "typed_not_sent" ∧
         (web_send_message wenv msg true).success = true) ∨
        ((web_send_message wenv msg true).status = none ∧
         (web_send_message wenv msg true).success = false))) ∧
    (∀ (t r : Option String) (d j : ℚ) (m : Nat) (st : MonitorState)
       (cycles : List CycleEnv),
       ((runMonitor ⟨t, r, d, j, m, true⟩ st cycles).events.all
          fun e => !e.replied) = true ∧
       ((runMonitor ⟨t, r, d, j, m, true⟩ st cycles).actions.all
          fun a => !(isPressReturn a)) = true) := by
  refine ⟨?_, ?_, ?_⟩
  · intro env msg
    unfold send_message
    repeat' split
    all_goals simp_all [isPressReturn]
  · intro wenv msg
    unfold web_send_message
    repeat' split
    all_goals simp_all [isPressEnter]
  · intro t r d j m st cycles
    exact runMonitor_dry ⟨t, r, d, j, m, true⟩ rfl cycles st

/-- C6 (counterexample to the claim as stated): with QQ not running a
dry-run send returns success=false and no status at all, not
`typed_not_sent` with success=true. -/
theorem dry_run_returns_error_without_status :
    (send_message ⟨false, [], none, true, true⟩ "你好" true).status = none ∧
    (send_message ⟨false, [], none, true, true⟩ "你好" true).success = false ∧
    (send_message ⟨false, [], none, true, true⟩ "你好" true).error =
      some "QQ 未运行" := by
  decide

/-! ## C7: search post-condition handling -/

/-- C7 (amended): only the native variant reports success when the
post-condition cannot be confirmed — recording a note instead of an error
— while the browser variant reports failure with an error when no search
result resolves. -/
theorem search_postcondition_note :
    (∀ (fw : Window) (wa : List Window) (name : String),
       (search_contact ⟨true, some fw, true, true, wa⟩ name).success = true ∧
       (search_contact ⟨true, some fw, true, true, wa⟩ name).error = none ∧
       (search_contact ⟨true, some fw, true, true, wa⟩ name).note =
         (if (find_chat_window wa).isSome = true then none
          else some "操作已执行但未检测到聊天窗口")) ∧
    (∀ (f g : String → LocateResult Nat) (name : String),
       (web_search_contact ⟨f, g⟩ name).success =
         ((tryStrategies f search_selectors).isSome &&
          (tryStrategies g (result_selectors name)).isSome) ∧
       (web_search_contact ⟨f, g⟩ name).error =
         (if (tryStrategies f search_selectors).isSome = false
          then some "未找到搜索框"
          else if (tryStrategies g (result_selectors name)).isSome = false
          then some "未找到搜索结果"
          else none)) := by
  constructor
  · intro fw wa name
    cases hf : find_chat_window wa with
    | none => simp [search_contact, hf]
    | some cw => simp [search_contact, hf]
  · intro f g name
    cases h1 : tryStrategies f search_selectors with
    | none => simp [web_search_contact, h1]
    | some p =>
      obtain ⟨sel, hd⟩ := p
      cases h2 : tryStrategies g (result_selectors name) with
      | none => simp [web_search_contact, h1, h2]
      | some q =>
        obtain ⟨rsel, rh⟩ := q
        simp [web_search_contact, h1, h2]

/-- C7 (counterexample to the claim as stated): in the browser variant an
unconfirmed search returns success=false with an error — not success with
a note. -/
theorem web_search_failure_is_error :
    (web_search_contact webEnvNoResult "Alice").success = false ∧
    (web_search_contact webEnvNoResult "Alice").error =
      some "未找到搜索结果" := by
  decide

end QQAuto
